import Mathlib

/-!
Verification of `acme/standalone.py`: the standalone ACME challenge
responder.  The HTTP dispatch layer (`SimpleHTTPRequestHandler.do_GET` and
its three branch handlers), the serve-loop/shutdown lifecycle
(`ACMEServerMixin.serve_forever2` / `shutdown2`, `simple_server`) and the
TLS-teardown tolerance of `ACMERequestHandler.handle_one_request` are
embedded as executable Lean definitions, and the specification claims are
settled as theorems about those definitions.
-/

namespace Standalone

/-! ## HTTP dispatch data model

`SimpleHTTPRequestHandler.simple_http_resources` is a set of
`SimpleHTTPResource = namedtuple("chall response validation")` values.
The registry is embedded as a `List`; Python set iteration order is
arbitrary, and `handle_simple_http_resource` serves the first element
whose `chall.path` equals the request path, which is `List.find?` here. -/

/-- The challenge object stored in a `SimpleHTTPResource`: the code reads
`resource.chall.path` (request-path match) and `resource.chall.token`.
In the source `chall` is a `challenges.SimpleHTTP` value; that class is
not part of this file, so `path` and `token` are kept as plain data. -/
structure SimpleHTTPChall where
  token : String
  path : String
deriving Repr, DecidableEq

/-- The response descriptor: the code reads `resource.response.CONTENT_TYPE`. -/
structure ChallengeResponse where
  CONTENT_TYPE : String
deriving Repr, DecidableEq

/-- The validation object: the code serves
`resource.validation.json_dumps().encode()`; `json_dumps` holds that
serialized payload (`encode` is the identity on this model of bytes). -/
structure Validation where
  json_dumps : String
deriving Repr, DecidableEq

/-- `SimpleHTTPResource = collections.namedtuple("SimpleHTTPResource", "chall response validation")`. -/
structure SimpleHTTPResource where
  chall : SimpleHTTPChall
  response : ChallengeResponse
  validation : Validation
deriving Repr, DecidableEq

/-- An HTTP response as assembled by the handler methods:
`send_response(status, message)`, one `Content-type` header, and the body
written to `wfile`. -/
structure HttpResponse where
  status : Nat
  message : Option String
  contentType : String
  body : String
deriving Repr, DecidableEq

/-- Modelled from the spec: the challenge URI root prefix
`challenges.SimpleHTTP.URI_ROOT_PATH` (the `challenges` module is not in
the repository snapshot).  The spec writes challenge resource URLs as
`/<challenge-prefix>/<token>`; the concrete ACME well-known root path is
used so that the claims can be evaluated on closed inputs. -/
def URI_ROOT_PATH : String := ".well-known/acme-challenge"

/-- Python `s.startswith(pre)`, embedded on the character lists of the
two strings. -/
def startswith (s pre : String) : Bool :=
  pre.data.isPrefixOf s.data

/-- `ACMEServerMixin.server_version`, written by `handle_index` as the
body of `GET /` (`self.server.server_version`). -/
def server_version : String := "ACME standalone client"

/-- `SimpleHTTPRequestHandler.handle_index`: `send_response(200)`,
`Content-type: text/html`, body `self.server.server_version`. -/
def handle_index : HttpResponse :=
  { status := 200, message := none, contentType := "text/html",
    body := server_version }

/-- `SimpleHTTPRequestHandler.handle_404`:
`send_response(http_client.NOT_FOUND, message="Not Found")`,
`Content-type: text/html`, body `"404"`. -/
def handle_404 : HttpResponse :=
  { status := 404, message := some "Not Found", contentType := "text/html",
    body := "404" }

/-- `SimpleHTTPRequestHandler.handle_simple_http_resource`: iterate over
`simple_http_resources`; the first resource with `chall.path == path` is
served with status `http_client.OK`, the `Content-type` from
`resource.response.CONTENT_TYPE` and body
`resource.validation.json_dumps().encode()`.  When no resource matches,
the method only logs (`"... does not correspond to any resource. ignoring"`)
and returns without writing any response, hence `none`. -/
def handle_simple_http_resource (simple_http_resources : List SimpleHTTPResource)
    (path : String) : Option HttpResponse :=
  match simple_http_resources.find? (fun resource => resource.chall.path == path) with
  | some resource =>
      some { status := 200, message := none,
             contentType := resource.response.CONTENT_TYPE,
             body := resource.validation.json_dumps }
  | none => none

/-- `SimpleHTTPRequestHandler.do_GET`: route to `handle_index` when the
path is `"/"`, to `handle_simple_http_resource` when it starts with
`"/" + challenges.SimpleHTTP.URI_ROOT_PATH`, and to `handle_404`
otherwise.  `none` means the handler returned without sending a response
(which `do_GET` itself never does; only the challenge branch can). -/
def do_GET (simple_http_resources : List SimpleHTTPResource)
    (path : String) : Option HttpResponse :=
  if path = "/" then
    some handle_index
  else if startswith path ("/" ++ URI_ROOT_PATH) then
    handle_simple_http_resource simple_http_resources path
  else
    some handle_404

/-! ## Serve-loop / shutdown lifecycle model

`ACMEServerMixin.serve_forever2` is `while not self._stopped:
self.handle_request()`.  `self.handle_request()` is the stdlib
`TCPServer.handle_request`, one blocking accept-and-handle cycle: it
blocks in `accept` until a connection is pending, then accepts it and
dispatches it to the request handler before returning.  The model keeps
the listening state, the queue of pending (not yet accepted) connections
and the ordered list of connections that have been dispatched; each
connection is identified by a `Nat`. -/

/-- The server state visible to `serve_forever2` / `shutdown2`:
`_stopped` is the stop flag set in the two `__init__` methods,
`socket_open` is whether the listening socket is open (`server_close`
closes it), `pending` are queued inbound connections and `handled` the
connections dispatched so far, in order. -/
structure AcmeServer where
  _stopped : Bool
  socket_open : Bool
  pending : List Nat
  handled : List Nat
deriving Repr, DecidableEq

/-- `socket.error` outcomes of `sock.connect(self.socket.getsockname())`
inside `shutdown2`. -/
inductive SocketError
  | econnrefused
deriving Repr, DecidableEq

/-- The loopback `sock.connect` of `shutdown2`: succeeds when the
listening socket is still open (the connection joins the pending queue),
raises `socket.error` when it is not. -/
def connect (s : AcmeServer) : Except SocketError Unit :=
  if s.socket_open then Except.ok () else Except.error SocketError.econnrefused

/-- Stdlib `TCPServer.handle_request`, the body of the serve loop: one
blocking accept-and-handle cycle.  `none` models the call still blocked
in `accept` (no pending connection); otherwise the first pending
connection is accepted and dispatched to the request handler. -/
def handle_request (s : AcmeServer) : Option AcmeServer :=
  match s.pending with
  | [] => none
  | c :: rest => some { s with pending := rest, handled := s.handled ++ [c] }

/-- `ACMEServerMixin.serve_forever2`: `while not self._stopped:
self.handle_request()`.  Fuel bounds the number of loop iterations the
model is allowed to take; `none` means the loop has not returned (still
blocked in `accept`, or out of fuel), `some s` that the loop observed the
flag and returned in state `s`. -/
def serve_forever2 : Nat → AcmeServer → Option AcmeServer
  | 0, _ => none
  | fuel + 1, s =>
    if s._stopped then some s
    else
      match handle_request s with
      | none => none
      | some s2 => serve_forever2 fuel s2

/-- `ACMEServerMixin.shutdown2`: set `self._stopped = True`; open a dummy
loopback connection to unblock a pending `handle_request` (a
`socket.error` from `connect` is swallowed by `except socket.error:
pass`); finally `self.server_close()` closes the listening socket.  The
whole body is exception-free, hence a total `Except.ok`. -/
def shutdown2 (dummy : Nat) (s : AcmeServer) : Except SocketError AcmeServer :=
  let s1 : AcmeServer := { s with _stopped := true }
  let s2 : AcmeServer :=
    match connect s1 with
    | Except.ok _ => { s1 with pending := s1.pending ++ [dummy] }
    | Except.error _ => s1
  Except.ok { s2 with socket_open := false }

/-- `ACMETLSServer.__init__` / `ACMEServer.__init__`: both set
`self._stopped = False` before delegating to the stdlib server
constructor, which binds the listening socket. -/
def ACMEServer_init : AcmeServer :=
  { _stopped := false, socket_open := true, pending := [], handled := [] }

/-- Stdlib `BaseServer.serve_forever`, used by `simple_server` when
`forever` is true: an unconditional handle-requests loop that only ends
by external termination — it never returns of its own accord. -/
def serve_forever : Nat → AcmeServer → Option AcmeServer
  | 0, _ => none
  | fuel + 1, s =>
    match handle_request s with
    | none => none
    | some s2 => serve_forever fuel s2

/-- The tail of `simple_server(cli_args, forever)`: `if forever:
server.serve_forever() else: server.handle_request()`. -/
def simple_server (forever : Bool) (fuel : Nat) (s : AcmeServer) : Option AcmeServer :=
  if forever then serve_forever fuel s else handle_request s

/-! ## ACMERequestHandler.handle_one_request -/

/-- The TLS-layer exception that may escape the stdlib
`handle_one_request`: `OpenSSL.SSL.ZeroReturnError` is the abrupt
zero-length close of a probing peer; `other` stands for any other
exception. -/
inductive SSLError
  | ZeroReturnError
  | other
deriving Repr, DecidableEq

/-- Log levels used by the module logger. -/
inductive LogLevel
  | debug
  | info
deriving Repr, DecidableEq

/-- One `logger` call: a level and a message. -/
structure LogRecord where
  level : LogLevel
  msg : String
deriving Repr, DecidableEq

/-- `ACMERequestHandler.handle_one_request`: run the base-class
`handle_one_request` (its outcome is the argument); on
`OpenSSL.SSL.ZeroReturnError` log at debug level and return normally;
every other outcome is passed through untouched. -/
def ACMERequestHandler.handle_one_request (base : Except SSLError Unit) :
    Except SSLError Unit × List LogRecord :=
  match base with
  | Except.error SSLError.ZeroReturnError =>
      (Except.ok (),
       [{ level := LogLevel.debug,
          msg := "Client prematurely closed connection (prober?). Ignoring request." }])
  | r => (r, [])

/-! ## Sample values used by closed witness and counterexample theorems -/

/-- A registered resource whose challenge path has the well-formed
`/<challenge-prefix>/<token>` shape. -/
def sample_resource : SimpleHTTPResource :=
  { chall := { token := "tok", path := "/" ++ URI_ROOT_PATH ++ "/" ++ "tok" },
    response := { CONTENT_TYPE := "application/jose+json" },
    validation := { json_dumps := "payload" } }

/-- A registered resource whose declared challenge path is the index path
`"/"`, which does not start with the challenge URI root. -/
def slash_resource : SimpleHTTPResource :=
  { chall := { token := "t", path := "/" },
    response := { CONTENT_TYPE := "text/plain" },
    validation := { json_dumps := "slashpayload" } }

/-! ## Helper lemmas -/

theorem isPrefixOf_append_self (l1 l2 : List Char) :
    l1.isPrefixOf (l1 ++ l2) = true := by
  induction l1 with
  | nil => simp
  | cons a as ih => simp [List.isPrefixOf, ih]

theorem startswith_path_form (t : String) :
    startswith ("/" ++ URI_ROOT_PATH ++ "/" ++ t) ("/" ++ URI_ROOT_PATH) = true := by
  unfold startswith
  have h := isPrefixOf_append_self ("/".data ++ URI_ROOT_PATH.data) ("/".data ++ t.data)
  simp only [String.data_append, List.append_assoc] at h ⊢
  exact h

theorem path_form_ne_slash (t : String) :
    ("/" ++ URI_ROOT_PATH ++ "/" ++ t) ≠ "/" := by
  intro h
  have hd : ("/" ++ URI_ROOT_PATH ++ "/" ++ t).data = "/".data :=
    congrArg String.data h
  have hlen := congrArg List.length hd
  have h1 : ("/".data).length = 1 := by decide
  have h2 : (URI_ROOT_PATH.data).length = 26 := by decide
  simp [String.data_append, List.length_append, h1, h2] at hlen

/-! ## Claim theorems -/

/-- Claim C1, counterexample.  The claim states that every `GET` whose
path is neither `"/"` nor a registered challenge path is answered 404
with body `"404"`, including paths that begin with the challenge URI
root.  On an empty registry, the path
`"/" ++ URI_ROOT_PATH ++ "/missing"` begins with the challenge root,
matches no entry, and `do_GET` routes it to
`handle_simple_http_resource`, which returns without sending any
response at all — not the 404 response. -/
theorem c1_counterexample :
    do_GET [] ("/" ++ URI_ROOT_PATH ++ "/missing") = none ∧
    do_GET [] ("/" ++ URI_ROOT_PATH ++ "/missing") ≠ some handle_404 := by
  decide

/-- Claim C1 (amended): a `GET` whose path is neither `"/"` nor prefixed
by `"/" ++ URI_ROOT_PATH` is answered 404 with body `"404"` and never
raises; a path that carries the challenge prefix but matches no
registered entry is instead routed to the challenge branch, which sends
no response (it only logs) — it never raises either. -/
theorem c1_unmatched_404 (resources : List SimpleHTTPResource) (path : String)
    (hroot : path ≠ "/") :
    (startswith path ("/" ++ URI_ROOT_PATH) = false →
      do_GET resources path = some handle_404) ∧
    (startswith path ("/" ++ URI_ROOT_PATH) = true →
      (∀ r ∈ resources, r.chall.path ≠ path) →
      do_GET resources path = none) := by
  constructor
  · intro hsw
    simp [do_GET, hroot, hsw]
  · intro hsw hnone
    simp only [do_GET, if_neg hroot, hsw, if_true]
    simp only [handle_simple_http_resource]
    have hfind : resources.find? (fun resource => resource.chall.path == path) = none := by
      rw [List.find?_eq_none]
      intro x hx
      simp only [beq_iff_eq]
      exact hnone x hx
    rw [hfind]

/-- Claim C1, witness for the amended theorem: on an empty registry,
`GET /other` is answered by `handle_404`, while a challenge-prefixed
unmatched path gets no response. -/
theorem c1_witness :
    do_GET [] "/other" = some handle_404 ∧
    do_GET [] ("/" ++ URI_ROOT_PATH ++ "/x") = none :=
  ⟨(c1_unmatched_404 [] "/other" (by decide)).1 (by decide),
   (c1_unmatched_404 [] ("/" ++ URI_ROOT_PATH ++ "/x") (by decide)).2 (by decide)
     (by simp)⟩

/-- Claim C2: an entry of the registry whose declared path has the
`/<challenge-prefix>/<token>` shape (the shape the spec gives challenge
URLs; the `challenges` module that builds the path is not in the
snapshot) is served on an exact path match with status 200, the
Content-Type of its response descriptor and its serialized validation
payload as the body.  Registry paths are assumed pairwise distinct, the
registry invariant the spec states in its data model. -/
theorem c2_registered_resource_served (resources : List SimpleHTTPResource)
    (e : SimpleHTTPResource) (he : e ∈ resources)
    (hdistinct : resources.Pairwise (fun a b => a.chall.path ≠ b.chall.path))
    (hpath : e.chall.path = "/" ++ URI_ROOT_PATH ++ "/" ++ e.chall.token) :
    do_GET resources e.chall.path =
      some { status := 200, message := none,
             contentType := e.response.CONTENT_TYPE,
             body := e.validation.json_dumps } := by
  have hroot : e.chall.path ≠ "/" := by
    rw [hpath]; exact path_form_ne_slash _
  have hsw : startswith e.chall.path ("/" ++ URI_ROOT_PATH) = true := by
    rw [hpath]; exact startswith_path_form _
  simp only [do_GET, if_neg hroot, hsw, if_true]
  have hpe : (fun r => r.chall.path == e.chall.path) e = true := by simp
  have hsome : (resources.find? (fun r => r.chall.path == e.chall.path)).isSome := by
    rw [List.find?_isSome]
    exact ⟨e, he, hpe⟩
  obtain ⟨r, hr⟩ := Option.isSome_iff_exists.mp hsome
  have hrmem : r ∈ resources := List.mem_of_find?_eq_some hr
  have hrpath : r.chall.path = e.chall.path := by
    have := List.find?_some hr
    simpa using this
  have hre : r = e := by
    by_contra hne
    have hsym : Symmetric (fun (a b : SimpleHTTPResource) => a.chall.path ≠ b.chall.path) :=
      fun x y hxy h => hxy h.symm
    exact (hdistinct.forall hsym hrmem he hne) hrpath
  simp [handle_simple_http_resource, hr, hre]

/-- Claim C2, witness: a concrete registry containing one well-formed
resource serves its payload on an exact path match. -/
theorem c2_witness :
    do_GET [sample_resource] sample_resource.chall.path =
      some { status := 200, message := none,
             contentType := "application/jose+json", body := "payload" } :=
  c2_registered_resource_served [sample_resource] sample_resource
    (by simp) (by simp) rfl

/-- Claim C3: `GET /` is always routed to `handle_index` — status 200,
Content-Type text/html, body the fixed server identification string —
whatever the registry holds, including a registry entry declared at
path `"/"`: the index branch of `do_GET` is checked first. -/
theorem c3_index_priority (resources : List SimpleHTTPResource) :
    do_GET resources "/" = some handle_index ∧
    handle_index = { status := 200, message := none, contentType := "text/html",
                     body := server_version } :=
  ⟨by simp [do_GET], rfl⟩

/-- Claim C10, counterexample.  The claim states that a `GET` to the
exact path of a registry entry whose path does not begin with
`"/" ++ URI_ROOT_PATH` is routed to the 404 branch.  An entry declared
at path `"/"` is such an entry, yet `GET /` is routed to the index
branch and answered 200, not 404. -/
theorem c10_counterexample :
    startswith slash_resource.chall.path ("/" ++ URI_ROOT_PATH) = false ∧
    do_GET [slash_resource] slash_resource.chall.path = some handle_index ∧
    some handle_index ≠ some handle_404 := by
  decide

/-- Claim C10 (amended): a registry entry whose declared path does not
begin with `"/" ++ URI_ROOT_PATH` is unreachable through `do_GET`: a
`GET` to exactly that path is answered by `handle_404` — except when the
path is `"/"`, which the index branch claims first — and in either case
the response is a fixed page independent of the entry, so the entry
payload is never served. -/
theorem c10_unreachable_entry (resources : List SimpleHTTPResource)
    (e : SimpleHTTPResource) (_he : e ∈ resources)
    (hsw : startswith e.chall.path ("/" ++ URI_ROOT_PATH) = false) :
    do_GET resources e.chall.path =
      (if e.chall.path = "/" then some handle_index else some handle_404) := by
  by_cases hroot : e.chall.path = "/" <;> simp [do_GET, hroot, hsw]

/-- Claim C10, witness for the amended theorem: the entry declared at
`"/"` is answered by the index page, not by its payload. -/
theorem c10_witness :
    do_GET [slash_resource] slash_resource.chall.path = some handle_index := by
  have h := c10_unreachable_entry [slash_resource] slash_resource (by simp) (by decide)
  simpa using h

/-- Helper: the stdlib `serve_forever` loop never returns of its own
accord — it either keeps handling connections or stays blocked. -/
theorem serve_forever_eq_none (fuel : Nat) : ∀ s, serve_forever fuel s = none := by
  induction fuel with
  | zero => intro s; rfl
  | succ n ih =>
    intro s
    unfold serve_forever
    cases hp : handle_request s with
    | none => simp
    | some s2 => simp [ih]

/-- Claim C4, counterexample.  The claim states that the unblocking
loopback connection of `shutdown2` is accepted only to force the blocked
accept to return, and that the loop flag check causes exit before that
connection is dispatched as a request.  In the code the loop body is the
stdlib `handle_request`, a single accept-and-dispatch step: starting from
a running server blocked in accept, `shutdown2` queues the dummy
connection, and the in-flight `handle_request` call both accepts and
dispatches it (`handled = [99]`) — the flag is only re-checked after that
dispatch. -/
theorem c4_counterexample :
    shutdown2 99 { _stopped := false, socket_open := true, pending := [], handled := [] } =
      Except.ok { _stopped := true, socket_open := false, pending := [99], handled := [] } ∧
    handle_request { _stopped := true, socket_open := false, pending := [99], handled := [] } =
      some { _stopped := true, socket_open := false, pending := [], handled := [99] } :=
  ⟨rfl, rfl⟩

/-- Claim C4 (amended): when the serve loop is blocked in accept (running
flag, open socket, nothing pending), `shutdown2` returns normally and the
loop exits within the one in-flight accept-and-handle cycle: that cycle
dispatches the unblocking connection itself (which, being immediately
closed by `shutdown2`, yields no meaningful response), and the flag
check after it terminates `serve_forever2` with no further connection
handled, whatever fuel remains. -/
theorem c4_shutdown_unblocks_loop (s : AcmeServer) (dummy fuel : Nat)
    (hrun : s._stopped = false) (hopen : s.socket_open = true)
    (hblocked : s.pending = []) :
    ∃ s1 s2, shutdown2 dummy s = Except.ok s1 ∧
      handle_request s1 = some s2 ∧
      s2.handled = s.handled ++ [dummy] ∧
      serve_forever2 (fuel + 1) s2 = some s2 := by
  obtain ⟨st, so, pe, ha⟩ := s
  simp only at hrun hopen hblocked
  subst hrun hopen hblocked
  refine ⟨{ _stopped := true, socket_open := false, pending := [dummy], handled := ha },
          { _stopped := true, socket_open := false, pending := [], handled := ha ++ [dummy] },
          ?_, ?_, ?_, ?_⟩
  · simp [shutdown2, connect]
  · simp [handle_request]
  · rfl
  · simp [serve_forever2]

/-- Claim C4, witness: the freshly constructed server, blocked in accept,
is unblocked by `shutdown2` and the loop exits after dispatching exactly
the dummy connection. -/
theorem c4_witness :
    ∃ s1 s2, shutdown2 7 ACMEServer_init = Except.ok s1 ∧
      handle_request s1 = some s2 ∧
      s2.handled = ACMEServer_init.handled ++ [7] ∧
      serve_forever2 1 s2 = some s2 :=
  c4_shutdown_unblocks_loop ACMEServer_init 7 0 rfl rfl rfl

/-- Claim C5: `shutdown2` never raises — the loopback `connect` failure
is swallowed — and it is idempotent: from any server state (loop already
exited, already stopped, never started), the call returns normally, and
a second call returns normally with the state unchanged. -/
theorem c5_shutdown2_idempotent_safe (s : AcmeServer) (d1 d2 : Nat) :
    ∃ s1, shutdown2 d1 s = Except.ok s1 ∧ shutdown2 d2 s1 = Except.ok s1 := by
  obtain ⟨st, so, pe, ha⟩ := s
  cases so <;> simp [shutdown2, connect]

/-- Claim C6: when the base-class `handle_one_request` outcome is the
TLS zero-length-close error `OpenSSL.SSL.ZeroReturnError`,
`ACMERequestHandler.handle_one_request` absorbs it: it returns normally
with one debug-level log record; and no outcome of the wrapper ever
propagates `ZeroReturnError` to the caller. -/
theorem c6_zero_return_absorbed (base : Except SSLError Unit) :
    (base = Except.error SSLError.ZeroReturnError →
      ACMERequestHandler.handle_one_request base =
        (Except.ok (),
         [{ level := LogLevel.debug,
            msg := "Client prematurely closed connection (prober?). Ignoring request." }])) ∧
    (∀ e, (ACMERequestHandler.handle_one_request base).1 = Except.error e →
      e ≠ SSLError.ZeroReturnError) := by
  constructor
  · rintro rfl
    rfl
  · intro e he hz
    subst hz
    cases base with
    | ok u => exact absurd he (by simp [ACMERequestHandler.handle_one_request])
    | error err =>
      cases err with
      | ZeroReturnError => simp [ACMERequestHandler.handle_one_request] at he
      | other => simp [ACMERequestHandler.handle_one_request] at he

/-- Claim C6, witness: the zero-length-close outcome concretely becomes a
normal return plus a debug log record. -/
theorem c6_witness :
    ACMERequestHandler.handle_one_request (Except.error SSLError.ZeroReturnError) =
      (Except.ok (),
       [{ level := LogLevel.debug,
          msg := "Client prematurely closed connection (prober?). Ignoring request." }]) :=
  (c6_zero_return_absorbed (Except.error SSLError.ZeroReturnError)).1 rfl

/-- Claim C7: with `forever = false`, `simple_server` performs a single
`handle_request`: it handles exactly the one pending request and
returns; with `forever = true` it runs `serve_forever`, which never
returns of its own accord — it serves until externally terminated. -/
theorem c7_simple_server_modes (s : AcmeServer) (c : Nat) (rest : List Nat)
    (fuel : Nat) (hpending : s.pending = c :: rest) :
    simple_server false fuel s =
      some { s with pending := rest, handled := s.handled ++ [c] } ∧
    ∀ fuel2, simple_server true fuel2 s = none := by
  constructor
  · simp [simple_server, handle_request, hpending]
  · intro fuel2
    simp [simple_server, serve_forever_eq_none]

/-- Claim C7, witness: with one pending connection, the single-request
mode handles it and returns; the forever mode does not return. -/
theorem c7_witness :
    simple_server false 0 { _stopped := false, socket_open := true, pending := [5], handled := [] } =
      some { _stopped := false, socket_open := true, pending := [], handled := [5] } ∧
    simple_server true 3 { _stopped := false, socket_open := true, pending := [5], handled := [] } = none :=
  ⟨(c7_simple_server_modes _ 5 [] 0 rfl).1,
   (c7_simple_server_modes _ 5 [] 0 rfl).2 3⟩

/-- Claim C8: the stop flag is false at construction; `handle_request`
leaves it unchanged; `shutdown2` always sets it to true (the only
mutation, monotone false-to-true — no operation resets it); and once it
is true, `serve_forever2` returns at once without a further iteration,
leaving the state untouched. -/
theorem c8_stopped_monotone :
    ACMEServer_init._stopped = false ∧
    (∀ s s2, handle_request s = some s2 → s2._stopped = s._stopped) ∧
    (∀ d s s2, shutdown2 d s = Except.ok s2 → s2._stopped = true) ∧
    (∀ s fuel, s._stopped = true → serve_forever2 (fuel + 1) s = some s) := by
  refine ⟨rfl, ?_, ?_, ?_⟩
  · intro s s2 h
    cases hp : s.pending with
    | nil => simp [handle_request, hp] at h
    | cons c rest =>
      simp only [handle_request, hp] at h
      cases h
      rfl
  · intro d s s2 h
    obtain ⟨st, so, pe, ha⟩ := s
    cases so <;> simp [shutdown2, connect] at h <;> cases h <;> rfl
  · intro s fuel h
    simp [serve_forever2, h]

/-- Claim C8, witness: the four conjuncts evaluated on concrete states —
a fresh server has the flag down, handling a connection preserves it,
`shutdown2` raises it, and a stopped server performs no loop iteration. -/
theorem c8_witness :
    ACMEServer_init._stopped = false ∧
    ({ _stopped := false, socket_open := true, pending := [], handled := [3] } : AcmeServer)._stopped =
      ({ _stopped := false, socket_open := true, pending := [3], handled := [] } : AcmeServer)._stopped ∧
    ({ _stopped := true, socket_open := false, pending := [9], handled := [] } : AcmeServer)._stopped = true ∧
    serve_forever2 1 { _stopped := true, socket_open := false, pending := [], handled := [] } =
      some { _stopped := true, socket_open := false, pending := [], handled := [] } :=
  ⟨c8_stopped_monotone.1,
   c8_stopped_monotone.2.1
     { _stopped := false, socket_open := true, pending := [3], handled := [] }
     { _stopped := false, socket_open := true, pending := [], handled := [3] } rfl,
   c8_stopped_monotone.2.2.1 9
     { _stopped := false, socket_open := true, pending := [], handled := [] }
     { _stopped := true, socket_open := false, pending := [9], handled := [] } rfl,
   c8_stopped_monotone.2.2.2
     { _stopped := true, socket_open := false, pending := [], handled := [] } 0 rfl⟩

end Standalone
